import Mathlib

/-!
Verification of the diesel schema-inference core
(`diesel_infer_schema/src/inference.rs` and
`diesel_codegen/src/schema_inference.rs`) against its specification.

The Rust code is shallowly embedded: pure dispatch/validation logic is
translated as Lean functions, the backend catalog calls (which live in
other modules of the crate) appear as explicit inputs or are modelled
from the spec where noted, and `Result<T, Box<Error>>` becomes
`Except InferError T`.
-/

namespace DieselInfer

/-- Modelled from the spec: `TableData` (the spec's TableIdentifier) lives in
`table_data.rs`, which is not part of the inspected sources. Per the spec it
is `{ schema: optional string, name: string }` and its string rendering
combines schema and name when a schema is present. -/
structure TableData where
  schema : Option String
  name : String
deriving DecidableEq, Repr

/-- Modelled from the spec: string rendering of a `TableData`, combining
schema and name when the schema is present. -/
def TableData.toString (t : TableData) : String :=
  match t.schema with
  | some s => s ++ ("." : String) ++ t.name
  | none => t.name

/-- Modelled from the spec: `ColumnInformation` lives in `data_structures.rs`,
not part of the inspected sources. Per the spec it is
`{ name, type_descriptor (backend-raw string), nullable }`. -/
structure ColumnInformation where
  name : String
  type_descriptor : String
  nullable : Bool
deriving DecidableEq, Repr

/-- Modelled from the spec: the normalized logical column kind of
`ColumnType` (data model section 3). -/
inductive LogicalKind where
  | Integer (width : Nat)
  | Float (width : Nat)
  | Text
  | Binary
  | Bool
  | Date
  | Time
  | Timestamp
  | Custom (name : String)
deriving DecidableEq, Repr

/-- Modelled from the spec: the normalized `ColumnType` from
`data_structures.rs`, which is not part of the inspected sources. -/
structure ColumnType where
  logical_kind : LogicalKind
  nullable : Bool
  array : Bool
deriving DecidableEq, Repr

/-- Modelled from the spec: `ForeignKeyConstraint` from `data_structures.rs`
(not in the inspected sources): a directed edge child table → parent table
with the child-side column name. The field is called `foreign_key` as at its
use site in `schema_inference.rs` (`fk.foreign_key`). -/
structure ForeignKeyConstraint where
  child_table : TableData
  parent_table : TableData
  foreign_key : String
deriving DecidableEq, Repr

/-- `diesel::result::Error` as seen by this crate: the inference code only
distinguishes `NotFound` from every other database error. -/
inductive DieselError where
  | NotFound
  | Other (msg : String)
deriving DecidableEq, Repr

/-- A `Box<Error>` value produced by the inference code: either a message
built with `format!` (embedded as the rendered string) or a wrapped
database error passed along unchanged via `map_err(Into::into)`. -/
inductive InferError where
  | message (s : String)
  | db (e : DieselError)
deriving DecidableEq, Repr

/-- A connection string. Rust's `str::starts_with` on `&str` is character-
sequence prefix matching, embedded as `List.IsPrefix` on the character
list. -/
abbrev Url := List Char

def pgPrefix : List Char := String.toList ("postgres://")

def pgqlPrefix : List Char := String.toList ("postgresql://")

def mysqlPrefix : List Char := String.toList ("mysql://")

/-- The Cargo feature flags of `diesel_infer_schema` that gate the match arms
of `establish_connection` and the variants of `InferConnection` via `#[cfg]`
attributes. -/
structure Features where
  sqlite : Bool
  postgres : Bool
  mysql : Bool
deriving DecidableEq, Repr

/-- The live backend connection handle obtained from the client library.
Its content is opaque to the inference code; it is identified here by the
order in which it was established during the run. -/
structure ConnState where
  id : Nat
deriving DecidableEq, Repr

/-- `InferConnection` (inference.rs lines 9-16): one variant per compiled
backend, each carrying the live connection. -/
inductive InferConnection where
  | Sqlite (c : ConnState)
  | Pg (c : ConnState)
  | Mysql (c : ConnState)
deriving DecidableEq, Repr

/-- The backend kind of an `InferConnection`, forgetting the live
connection state. -/
inductive Backend where
  | Sqlite
  | Pg
  | Mysql
deriving DecidableEq, Repr

def InferConnection.backend : InferConnection → Backend
  | .Sqlite _ => .Sqlite
  | .Pg _ => .Pg
  | .Mysql _ => .Mysql

/-- The `format!` message of `establish_connection`'s fallback arm when only
Postgres (no SQLite) is compiled in (inference.rs lines 46-52). -/
def invalidPgUrlMessage (url : Url) : String :=
  String.mk url
    ++ (" is not a valid PG database URL. It must start with postgres:// or postgresql://" : String)

/-- The `format!` message of `establish_connection`'s fallback arm when only
MySQL is compiled in (inference.rs lines 53-60). -/
def invalidMysqlUrlMessage (url : Url) : String :=
  String.mk url
    ++ (" is not a valid MySQL database URL. It must start with mysql://" : String)

/-- `establish_connection` (inference.rs lines 33-62). The match arms are
kept in source order; each is guarded by the feature flags of its `#[cfg]`
attribute. The fourth arm's `cfg` is `postgres ∧ ¬sqlite` and the fifth's is
`mysql ∧ ¬sqlite ∧ ¬postgres`; at those points of the chain the earlier
branches already force `¬sqlite` (and `¬postgres` for the fifth), so the
remaining tests are `f.postgres` and `f.mysql`. `establish_real_connection`'s
possible client-library failure is environmental, not part of the embedded
selection logic: a selected backend yields the freshly established
connection, identified by `connId`. The final catch-all is unreachable in
the crate — with no backend feature enabled the Rust match is non-exhaustive
and the crate does not compile. -/
def establish_connection (f : Features) (url : Url) (connId : Nat) :
    Except InferError InferConnection :=
  if f.postgres = true ∧ (pgPrefix <+: url ∨ pgqlPrefix <+: url) then
    .ok (.Pg ⟨connId⟩)
  else if f.mysql = true ∧ mysqlPrefix <+: url then
    .ok (.Mysql ⟨connId⟩)
  else if f.sqlite = true then
    .ok (.Sqlite ⟨connId⟩)
  else if f.postgres = true then
    .error (.message (invalidPgUrlMessage url))
  else if f.mysql = true then
    .error (.message (invalidMysqlUrlMessage url))
  else
    .error (.message (String.mk url ++ (" matched no compiled backend" : String)))

/-- Modelled from the spec: `remove_unsafe_foreign_keys_for_codegen` is
defined outside the inspected sources; only its call site in
`schema_inference.rs` (lines 25-29) is present, which passes the database
url, the raw constraint list and the known table list. Per the spec's
sanitizer contract it drops, without erroring, every constraint whose child
table equals its parent table and every constraint whose child or parent
table is absent from the known tables, keeping the rest; the database url is
not part of the sanitize contract and is unused. -/
def remove_unsafe_foreign_keys_for_codegen (database_url : Url)
    (foreign_keys : List ForeignKeyConstraint) (table_names : List TableData) :
    List ForeignKeyConstraint :=
  foreign_keys.filter (fun fk =>
    decide (fk.child_table ≠ fk.parent_table
      ∧ fk.child_table ∈ table_names ∧ fk.parent_table ∈ table_names))

/-- The `format!` message of `get_table_data` when the backend column query
reports the table as not found (inference.rs line 88). -/
def noTableMessage (table : TableData) : String :=
  ("no table exists named " : String) ++ table.toString

/-- `get_table_data` (inference.rs lines 76-92). The backend dispatch result
(`Result<Vec<ColumnInformation>, diesel::result::Error>`) is the explicit
input `column_info`. A `NotFound` error is replaced by the fatal
table-vanished message naming the table; every other error is propagated
unchanged via `map_err(Into::into)` (the `.db` wrapper), and an `Ok` result
is returned as is. The function consumes a single backend result: no
retry. -/
def get_table_data (column_info : Except DieselError (List ColumnInformation))
    (table : TableData) : Except InferError (List ColumnInformation) :=
  match column_info with
  | .error .NotFound => .error (.message (noTableMessage table))
  | .error e => .error (.db e)
  | .ok v => .ok v

/-- The per-backend column-type mappers (`sqlite::determine_column_type`,
`pg::determine_column_type`, `mysql::determine_column_type`) live outside
the inspected sources. Per the spec (section 4.3) each is a pure function of
the column information alone; they are taken here as arbitrary parameters,
so the theorems about the dispatcher hold for every such mapper. -/
structure BackendMappers where
  sqlite : ColumnInformation → Except InferError ColumnType
  pg : ColumnInformation → Except InferError ColumnType
  mysql : ColumnInformation → Except InferError ColumnType

/-- `determine_column_type` (inference.rs lines 94-106): dispatches on the
connection variant only — each match arm binds the live connection payload
as `_` — and applies that backend's pure mapper to the column
information. -/
def determine_column_type (m : BackendMappers) (attr : ColumnInformation)
    (conn : InferConnection) : Except InferError ColumnType :=
  match conn with
  | .Sqlite _ => m.sqlite attr
  | .Pg _ => m.pg attr
  | .Mysql _ => m.mysql attr

/-- The `format!` message of `get_primary_keys` for a table with an empty
primary-key list (inference.rs lines 121-122). -/
def missingPrimaryKeyMessage (table : TableData) : String :=
  ("Diesel only supports tables with primary keys. Table " : String)
    ++ table.toString ++ (" has no primary key" : String)

/-- The `format!` message of `get_primary_keys` for a table whose primary key
has more than 5 columns (inference.rs lines 124-128). -/
def primaryKeyTooWideMessage (table : TableData) (count : Nat) : String :=
  ("Diesel does not currently support tables with primary keys consisting of more than 5 columns. Table " : String)
    ++ table.toString ++ (" has " : String) ++ Nat.repr count
    ++ (" columns in its primary key. Please open an issue and we will increase the limit." : String)

/-- `get_primary_keys` (inference.rs lines 108-132). The backend dispatch
(`sqlite`/`information_schema` catalog queries) is external to this file's
sources, so its result is the explicit input `backend`; `try!` propagates a
backend error unchanged. On a backend-reported key list the function errors
on an empty list, errors on a list longer than 5, and otherwise returns the
list untouched. -/
def get_primary_keys (backend : Except InferError (List String))
    (table : TableData) : Except InferError (List String) :=
  match backend with
  | .error e => .error e
  | .ok primary_keys =>
    if primary_keys.isEmpty then
      .error (.message (missingPrimaryKeyMessage table))
    else if primary_keys.length > 5 then
      .error (.message (primaryKeyTooWideMessage table primary_keys.length))
    else
      .ok primary_keys

/-- The catalog operations a loading call issues over its connection. -/
inductive CatalogOp where
  | listTables
  | listForeignKeys
deriving DecidableEq, Repr

/-- Connection-level events of an introspection run: a connection being
established, and a catalog query being issued over a connection. -/
inductive Event where
  | establish (connId : Nat)
  | query (connId : Nat) (op : CatalogOp)
deriving DecidableEq, Repr

/-- The backend database's catalog as observable through the adapter
operations: the listed tables and the declared foreign keys per (optional)
schema name. -/
structure DbEnv where
  tables : Option String → List TableData
  fks : Option String → List ForeignKeyConstraint

/-- Modelled from the spec: the per-backend `load_table_names`
implementations (`sqlite.rs` / `information_schema.rs`) are outside the
inspected sources. Per the spec the adapter lists the tables of the
requested schema and fails fast when the listing is empty and a schema name
was explicitly requested (signalling a likely misspelled schema); with no
requested schema the listing is returned as is. -/
def backend_load_table_names (env : DbEnv) (schema_name : Option String) :
    Except InferError (List TableData) :=
  let tables := env.tables schema_name
  match schema_name with
  | some s =>
    if tables.isEmpty then
      .error (.message (("no tables found in schema " : String) ++ s))
    else
      .ok tables
  | none => .ok tables

/-- Modelled from the spec: the per-backend `load_foreign_key_constraints`
implementations are outside the inspected sources; per the spec the adapter
returns every declared foreign key visible in the (optional) schema. -/
def backend_load_foreign_keys (env : DbEnv) (schema_name : Option String) :
    Except InferError (List ForeignKeyConstraint) :=
  .ok (env.fks schema_name)

/-- `load_table_names` (inference.rs lines 18-31): establishes its own
connection via `try!(establish_connection(database_url))` — an establishment
failure propagates and no query event occurs — then dispatches the backend
table-name query over that fresh connection. The event list records the
establishment and the query, tagged with the connection it runs on. -/
def load_table_names (env : DbEnv) (f : Features) (url : Url)
    (schema_name : Option String) (connId : Nat) :
    Except InferError (List TableData) × List Event :=
  match establish_connection f url connId with
  | .error e => (.error e, [])
  | .ok _ =>
    (backend_load_table_names env schema_name,
     [.establish connId, .query connId .listTables])

/-- `load_foreign_key_constraints` (inference.rs lines 134-147): establishes
its own connection via `try!(establish_connection(database_url))`, then
dispatches the backend foreign-key query over that fresh connection. -/
def load_foreign_key_constraints (env : DbEnv) (f : Features) (url : Url)
    (schema_name : Option String) (connId : Nat) :
    Except InferError (List ForeignKeyConstraint) × List Event :=
  match establish_connection f url connId with
  | .error e => (.error e, [])
  | .ok _ =>
    (backend_load_foreign_keys env schema_name,
     [.establish connId, .query connId .listForeignKeys])

/-- The data-loading phase of `derive_infer_schema` (schema_inference.rs
lines 21-29): load the table names, then the foreign-key constraints — each
call establishes its own connection from the database url, so the
connections are numbered 0 and 1 in order of establishment — then sanitize
the constraints against the table list. `.expect` aborts the build on a
loading error, embedded as error propagation; the run's events are the
concatenated events of the two calls. -/
def derive_infer_schema_load (env : DbEnv) (f : Features) (url : Url)
    (schema_name : Option String) :
    Except InferError (List TableData × List ForeignKeyConstraint) × List Event :=
  match load_table_names env f url schema_name 0 with
  | (.error e, ev1) => (.error e, ev1)
  | (.ok table_names, ev1) =>
    match load_foreign_key_constraints env f url schema_name 1 with
    | (.error e, ev2) => (.error e, ev1 ++ ev2)
    | (.ok foreign_keys, ev2) =>
      (.ok (table_names,
        remove_unsafe_foreign_keys_for_codegen url foreign_keys table_names),
       ev1 ++ ev2)

/-- The number of connections established in an event trace. -/
def countEstablish (evs : List Event) : Nat :=
  (evs.filter (fun e =>
    match e with
    | .establish _ => true
    | .query _ _ => false)).length

/-- A one-table, no-foreign-key database catalog, used as the concrete
environment for the connection-count facts. -/
def sampleEnv : DbEnv where
  tables := fun _ => [⟨none, ("users" : String)⟩]
  fks := fun _ => []

/-- The source items emitted by `derive_infer_schema`: a per-table module
`mod infer_<table> { infer_table_from_schema!(url, table) } pub use ...`, a
`joinable!(child -> parent (fk))` invocation, or a wrapping
`pub mod <name> { ... }`. -/
inductive SchemaItem where
  | tableMod (mod_name : String) (database_url : Url) (table_name : String)
  | joinable (child parent fk : String)
  | pubMod (mod_name : String) (items : List SchemaItem)

/-- `derive_infer_schema` (schema_inference.rs lines 9-57) from the loaded
table names and raw foreign keys onward (attribute-option parsing and
database-url extraction are outside the specified core and taken as
already-resolved inputs): sanitize the foreign keys, emit one table item per
table in listing order followed by one `joinable!` item per sanitized
constraint, and wrap the whole item list in `pub mod <schema_name>` exactly
when a schema name was supplied. -/
def derive_infer_schema (database_url : Url) (schema_name : Option String)
    (table_names : List TableData) (foreign_keys : List ForeignKeyConstraint) :
    List SchemaItem :=
  let sanitized := remove_unsafe_foreign_keys_for_codegen database_url foreign_keys table_names
  let tables := table_names.map (fun table =>
    SchemaItem.tableMod (("infer_" : String) ++ table.name) database_url table.toString)
  let joinables := sanitized.map (fun fk =>
    SchemaItem.joinable fk.child_table.name fk.parent_table.name fk.foreign_key)
  let tokens := tables ++ joinables
  match schema_name with
  | some name => [SchemaItem.pubMod name tokens]
  | none => tokens

end DieselInfer

namespace DieselInfer

/-- A backend-reported key list of length 1 to 5 passes both checks of
`get_primary_keys` untouched. -/
theorem get_primary_keys_ok_aux (pks : List String) (table : TableData)
    (h1 : 1 ≤ pks.length) (h5 : pks.length ≤ 5) :
    get_primary_keys (.ok pks) table = .ok pks := by
  simp only [get_primary_keys]
  have hne : pks.isEmpty = false := by
    cases pks with
    | nil => simp at h1
    | cons a l => rfl
  rw [hne]
  simp only [Bool.false_eq_true, if_false]
  rw [if_neg (by omega)]

/-- C1: for every table whose backend catalog reports a primary-key column
list of length between 1 and 5 inclusive, `get_primary_keys` returns `Ok`
with exactly that list, preserving size and order. -/
theorem get_primary_keys_ok_in_range (pks : List String) (table : TableData)
    (h1 : 1 ≤ pks.length) (h5 : pks.length ≤ 5) :
    get_primary_keys (.ok pks) table = .ok pks :=
  get_primary_keys_ok_aux pks table h1 h5

/-- Witness for C1 at a concrete two-column primary key. -/
theorem get_primary_keys_ok_in_range_witness :
    get_primary_keys (.ok [("id" : String), ("kind" : String)])
      ⟨none, ("users" : String)⟩
      = .ok [("id" : String), ("kind" : String)] :=
  get_primary_keys_ok_in_range [("id" : String), ("kind" : String)]
    ⟨none, ("users" : String)⟩ (by decide) (by decide)

/-- C2: on a backend-reported key list, `get_primary_keys` errors exactly
when the list is empty or longer than 5: the empty list produces the
missing-primary-key message naming the table, a list of 6 or more produces
the too-wide message carrying the table name and the actual count, and no
list is ever truncated (every `Ok` result is the input list itself). -/
theorem get_primary_keys_error_boundaries (pks : List String) (table : TableData) :
    (pks = [] →
      get_primary_keys (.ok pks) table
        = .error (.message (missingPrimaryKeyMessage table)))
    ∧ (pks.length > 5 →
      get_primary_keys (.ok pks) table
        = .error (.message (primaryKeyTooWideMessage table pks.length)))
    ∧ ((∃ e, get_primary_keys (.ok pks) table = .error e) ↔
        (pks.length = 0 ∨ pks.length > 5))
    ∧ (∀ r, get_primary_keys (.ok pks) table = .ok r → r = pks) := by
  refine ⟨?_, ?_, ?_, ?_⟩
  · intro h
    subst h
    rfl
  · intro h
    simp only [get_primary_keys]
    have hne : pks.isEmpty = false := by
      cases pks with
      | nil => simp at h
      | cons a l => rfl
    rw [hne]
    simp only [Bool.false_eq_true, if_false]
    rw [if_pos (by omega)]
  · constructor
    · rintro ⟨e, he⟩
      by_contra hcon
      push_neg at hcon
      rw [get_primary_keys_ok_aux pks table (by omega) (by omega)] at he
      exact Except.noConfusion he
    · rintro (h | h)
      · have : pks = [] := List.length_eq_zero.mp h
        subst this
        exact ⟨.message (missingPrimaryKeyMessage table), rfl⟩
      · refine ⟨.message (primaryKeyTooWideMessage table pks.length), ?_⟩
        simp only [get_primary_keys]
        have hne : pks.isEmpty = false := by
          cases pks with
          | nil => simp at h
          | cons a l => rfl
        rw [hne]
        simp only [Bool.false_eq_true, if_false]
        rw [if_pos (by omega)]
  · intro r hr
    simp only [get_primary_keys] at hr
    by_cases hemp : pks.isEmpty
    · rw [if_pos hemp] at hr
      exact Except.noConfusion hr
    · rw [if_neg hemp] at hr
      by_cases hlen : pks.length > 5
      · rw [if_pos hlen] at hr
        exact Except.noConfusion hr
      · rw [if_neg hlen] at hr
        exact (Except.ok.injEq _ _).mp hr.symm

/-- Witness for C2 at concrete inputs: an empty key list and a 6-column key
list, on the table `users`. -/
theorem get_primary_keys_error_boundaries_witness :
    get_primary_keys (.ok ([] : List String)) ⟨none, ("users" : String)⟩
      = .error (.message (missingPrimaryKeyMessage ⟨none, ("users" : String)⟩))
    ∧ get_primary_keys
        (.ok [("a" : String), ("b" : String), ("c" : String), ("d" : String),
              ("e" : String), ("f" : String)])
        ⟨none, ("users" : String)⟩
      = .error (.message (primaryKeyTooWideMessage ⟨none, ("users" : String)⟩ 6)) :=
  ⟨(get_primary_keys_error_boundaries [] ⟨none, ("users" : String)⟩).1 rfl,
   (get_primary_keys_error_boundaries
      [("a" : String), ("b" : String), ("c" : String), ("d" : String),
       ("e" : String), ("f" : String)] ⟨none, ("users" : String)⟩).2.1
     (by decide)⟩

/-- Two lists starting with different heads cannot both be prefixes of the
same list. -/
theorem not_isPrefix_of_head_ne {a b : Char} {p q url : List Char}
    (hab : a ≠ b) (hp : (a :: p) <+: url) : ¬ ((b :: q) <+: url) := by
  rintro ⟨t2, h2⟩
  rcases hp with ⟨t1, h1⟩
  rw [← h2] at h1
  exact hab ((List.cons.injEq _ _ _ _).mp h1).1

/-- A url starting with `mysql://` does not start with `postgres://`. -/
theorem mysql_url_not_pg {url : Url} (h : mysqlPrefix <+: url) :
    ¬ (pgPrefix <+: url) := by
  have h' : (('m' : Char) :: String.toList ("ysql://")) <+: url := h
  exact not_isPrefix_of_head_ne (by decide) h'

/-- A url starting with `mysql://` does not start with `postgresql://`. -/
theorem mysql_url_not_pgql {url : Url} (h : mysqlPrefix <+: url) :
    ¬ (pgqlPrefix <+: url) := by
  have h' : (('m' : Char) :: String.toList ("ysql://")) <+: url := h
  exact not_isPrefix_of_head_ne (by decide) h'

/-- C3: with all three backends compiled in, `establish_connection` selects
the backend by prefix: a url starting with `postgres://` or `postgresql://`
resolves to the Postgres backend, a url starting with `mysql://` resolves to
the MySQL backend, and any other url resolves to the SQLite backend. -/
theorem establish_connection_backend_dispatch (f : Features) (url : Url) (i : Nat)
    (hs : f.sqlite = true) (hp : f.postgres = true) (hm : f.mysql = true) :
    ((pgPrefix <+: url ∨ pgqlPrefix <+: url) →
      establish_connection f url i = .ok (.Pg ⟨i⟩))
    ∧ (mysqlPrefix <+: url →
      establish_connection f url i = .ok (.Mysql ⟨i⟩))
    ∧ (¬ (pgPrefix <+: url) → ¬ (pgqlPrefix <+: url) → ¬ (mysqlPrefix <+: url) →
      establish_connection f url i = .ok (.Sqlite ⟨i⟩)) := by
  refine ⟨?_, ?_, ?_⟩
  · intro h
    simp only [establish_connection]
    rw [if_pos ⟨hp, h⟩]
  · intro h
    simp only [establish_connection]
    rw [if_neg, if_pos ⟨hm, h⟩]
    rintro ⟨-, hor | hor⟩
    · exact mysql_url_not_pg h hor
    · exact mysql_url_not_pgql h hor
  · intro h1 h2 h3
    simp only [establish_connection]
    rw [if_neg, if_neg, if_pos hs]
    · rintro ⟨-, hpre⟩
      exact h3 hpre
    · rintro ⟨-, hor | hor⟩
      · exact h1 hor
      · exact h2 hor

/-- Witness for C3 at three concrete connection strings. -/
theorem establish_connection_backend_dispatch_witness :
    establish_connection ⟨true, true, true⟩ (String.toList ("postgres://u:p@host/db")) 0
      = .ok (.Pg ⟨0⟩)
    ∧ establish_connection ⟨true, true, true⟩ (String.toList ("mysql://u:p@host/db")) 0
      = .ok (.Mysql ⟨0⟩)
    ∧ establish_connection ⟨true, true, true⟩ (String.toList ("db.sqlite")) 0
      = .ok (.Sqlite ⟨0⟩) :=
  ⟨(establish_connection_backend_dispatch ⟨true, true, true⟩
      (String.toList ("postgres://u:p@host/db")) 0 rfl rfl rfl).1 (Or.inl (by decide)),
   (establish_connection_backend_dispatch ⟨true, true, true⟩
      (String.toList ("mysql://u:p@host/db")) 0 rfl rfl rfl).2.1 (by decide),
   (establish_connection_backend_dispatch ⟨true, true, true⟩
      (String.toList ("db.sqlite")) 0 rfl rfl rfl).2.2
     (by decide) (by decide) (by decide)⟩

/-- C4: in the one multi-backend configuration whose compiled backends all
require a prefix — Postgres and MySQL compiled, SQLite not (SQLite accepts
any string, so with SQLite compiled no string is unrecognized) — a url
matching none of the recognized prefixes makes `establish_connection` fail
with the unrecognized-connection-string error instead of selecting a
backend. -/
theorem establish_connection_unrecognized (f : Features) (url : Url) (i : Nat)
    (hs : f.sqlite = false) (hp : f.postgres = true) (hm : f.mysql = true)
    (h1 : ¬ (pgPrefix <+: url)) (h2 : ¬ (pgqlPrefix <+: url))
    (h3 : ¬ (mysqlPrefix <+: url)) :
    establish_connection f url i = .error (.message (invalidPgUrlMessage url))
    ∧ ∀ conn, establish_connection f url i ≠ .ok conn := by
  have hmain : establish_connection f url i
      = .error (.message (invalidPgUrlMessage url)) := by
    simp only [establish_connection]
    rw [if_neg, if_neg, if_neg, if_pos hp]
    · rw [hs]
      decide
    · rintro ⟨-, hpre⟩
      exact h3 hpre
    · rintro ⟨-, hor | hor⟩
      · exact h1 hor
      · exact h2 hor
  refine ⟨hmain, fun conn hok => ?_⟩
  rw [hmain] at hok
  exact Except.noConfusion hok

/-- Witness for C4 at a concrete prefix-less connection string. -/
theorem establish_connection_unrecognized_witness :
    establish_connection ⟨false, true, true⟩ (String.toList ("db.sqlite")) 0
      = .error (.message (invalidPgUrlMessage (String.toList ("db.sqlite")))) :=
  (establish_connection_unrecognized ⟨false, true, true⟩
    (String.toList ("db.sqlite")) 0 rfl rfl rfl
    (by decide) (by decide) (by decide)).1

/-- C5: the sanitized list contains a constraint exactly when it appears in
the raw list, its child table differs from its parent table, and both its
child and parent tables are among the known tables; being a subsequence
filter of the input, dropped constraints are silently excluded (the function
is total — it cannot return an error). -/
theorem remove_unsafe_foreign_keys_characterization (url : Url)
    (fks : List ForeignKeyConstraint) (tables : List TableData) :
    (∀ fk, fk ∈ remove_unsafe_foreign_keys_for_codegen url fks tables ↔
      (fk ∈ fks ∧ fk.child_table ≠ fk.parent_table
        ∧ fk.child_table ∈ tables ∧ fk.parent_table ∈ tables))
    ∧ (remove_unsafe_foreign_keys_for_codegen url fks tables).Sublist fks := by
  constructor
  · intro fk
    simp [remove_unsafe_foreign_keys_for_codegen, List.mem_filter, and_assoc]
  · exact List.filter_sublist fks

/-- C6: when the backend column query reports the table as not found,
`get_table_data` returns the fatal error naming the table; every other
query failure is propagated unchanged; a successful query result is
returned as is. -/
theorem get_table_data_error_dispatch (table : TableData) :
    (get_table_data (.error .NotFound) table
      = .error (.message (noTableMessage table)))
    ∧ (∀ e, e ≠ DieselError.NotFound →
      get_table_data (.error e) table = .error (.db e))
    ∧ (∀ cols, get_table_data (.ok cols) table = .ok cols) := by
  refine ⟨rfl, ?_, fun cols => rfl⟩
  intro e he
  cases e with
  | NotFound => exact absurd rfl he
  | Other m => rfl

/-- Witness for C6: the table-vanished case and an unrelated database error
on the table `users`. -/
theorem get_table_data_error_dispatch_witness :
    get_table_data (.error .NotFound) ⟨none, ("users" : String)⟩
      = .error (.message (noTableMessage ⟨none, ("users" : String)⟩))
    ∧ get_table_data (.error (.Other ("disk io error" : String)))
        ⟨none, ("users" : String)⟩
      = .error (.db (.Other ("disk io error" : String))) :=
  ⟨(get_table_data_error_dispatch ⟨none, ("users" : String)⟩).1,
   (get_table_data_error_dispatch ⟨none, ("users" : String)⟩).2.1
     (.Other ("disk io error" : String)) (by decide)⟩

/-- C9: `determine_column_type` is deterministic and its result depends only
on the column information and the connection's backend variant, never on the
live connection state: two connections of the same variant yield the same
result, and repeating the call on the same input yields the identical
result, for every choice of per-backend mapper. -/
theorem determine_column_type_deterministic (m : BackendMappers)
    (attr : ColumnInformation) (c1 c2 : InferConnection)
    (h : c1.backend = c2.backend) :
    determine_column_type m attr c1 = determine_column_type m attr c2
    ∧ determine_column_type m attr c1 = determine_column_type m attr c1 := by
  cases c1 <;> cases c2 <;> simp only [InferConnection.backend] at h <;>
    first
      | exact ⟨rfl, rfl⟩
      | exact Backend.noConfusion h

/-- Witness for C9: two Postgres connections with different live states give
the same mapped type. -/
theorem determine_column_type_deterministic_witness :
    determine_column_type
      ⟨fun _ => .ok ⟨.Text, false, false⟩,
       fun _ => .ok ⟨.Integer 4, false, false⟩,
       fun _ => .ok ⟨.Bool, false, false⟩⟩
      ⟨("id" : String), ("int4" : String), false⟩ (.Pg ⟨0⟩)
    = determine_column_type
      ⟨fun _ => .ok ⟨.Text, false, false⟩,
       fun _ => .ok ⟨.Integer 4, false, false⟩,
       fun _ => .ok ⟨.Bool, false, false⟩⟩
      ⟨("id" : String), ("int4" : String), false⟩ (.Pg ⟨1⟩) :=
  (determine_column_type_deterministic
    ⟨fun _ => .ok ⟨.Text, false, false⟩,
     fun _ => .ok ⟨.Integer 4, false, false⟩,
     fun _ => .ok ⟨.Bool, false, false⟩⟩
    ⟨("id" : String), ("int4" : String), false⟩ (.Pg ⟨0⟩) (.Pg ⟨1⟩) rfl).1

/-- C7: when a schema name is explicitly requested, the connection string
resolves, and the backend's table listing for that schema is empty, the
table-loading step fails with an error and in particular never returns an
(empty or other) table list. -/
theorem load_table_names_empty_schema_fails (env : DbEnv) (f : Features)
    (url : Url) (s : String) (i : Nat)
    (hempty : env.tables (some s) = [])
    (hconn : ∃ conn, establish_connection f url i = .ok conn) :
    (load_table_names env f url (some s) i).1
      = .error (.message (("no tables found in schema " : String) ++ s))
    ∧ ∀ r, (load_table_names env f url (some s) i).1 ≠ .ok r := by
  obtain ⟨conn, hc⟩ := hconn
  have hmain : (load_table_names env f url (some s) i).1
      = .error (.message (("no tables found in schema " : String) ++ s)) := by
    simp only [load_table_names, hc, backend_load_table_names, hempty]
    rfl
  refine ⟨hmain, fun r hr => ?_⟩
  rw [hmain] at hr
  exact Except.noConfusion hr

/-- Witness for C7: an explicitly requested schema `public` over a catalog
with no tables. -/
theorem load_table_names_empty_schema_fails_witness :
    (load_table_names ⟨fun _ => [], fun _ => []⟩ ⟨true, true, true⟩
        (String.toList ("postgres://u:p@host/db")) (some ("public" : String)) 0).1
      = .error (.message (("no tables found in schema " : String) ++ ("public" : String))) :=
  (load_table_names_empty_schema_fails ⟨fun _ => [], fun _ => []⟩ ⟨true, true, true⟩
    (String.toList ("postgres://u:p@host/db")) ("public" : String) 0 rfl
    ⟨.Pg ⟨0⟩, by
      simp only [establish_connection]
      rw [if_pos ⟨by trivial, Or.inl (by decide)⟩]⟩).1

/-- C8 counterexample: a successful loading phase of `derive_infer_schema`
on a concrete catalog establishes two database connections, not one —
`load_table_names` and `load_foreign_key_constraints` each call
`establish_connection` on the database url. -/
theorem derive_load_two_connections_counterexample :
    countEstablish (derive_infer_schema_load sampleEnv ⟨true, true, true⟩
        (String.toList ("postgres://u:p@host/db")) none).2 = 2
    ∧ ¬ (countEstablish (derive_infer_schema_load sampleEnv ⟨true, true, true⟩
        (String.toList ("postgres://u:p@host/db")) none).2 = 1) := by
  constructor
  · decide
  · decide

/-- C8 amended: a `derive_infer_schema` run establishes one connection per
loading call rather than one per run: whenever the connection string
resolves to a backend and the table listing succeeds, the run's event trace
is exactly an establishment followed by the table-listing query on that
connection, then a second establishment followed by the foreign-key query on
that second connection — two connections in total, each catalog query issued
over the connection established by the call that issues it. -/
theorem derive_load_one_connection_per_call (env : DbEnv) (f : Features)
    (url : Url) (schema_name : Option String)
    (hconn : ∀ i, ∃ conn, establish_connection f url i = .ok conn)
    (htab : ∃ ts, backend_load_table_names env schema_name = .ok ts) :
    (derive_infer_schema_load env f url schema_name).2
      = [.establish 0, .query 0 .listTables, .establish 1, .query 1 .listForeignKeys]
    ∧ countEstablish (derive_infer_schema_load env f url schema_name).2 = 2 := by
  obtain ⟨c0, h0⟩ := hconn 0
  obtain ⟨c1, h1⟩ := hconn 1
  obtain ⟨ts, hts⟩ := htab
  have hmain : (derive_infer_schema_load env f url schema_name).2
      = [.establish 0, .query 0 .listTables, .establish 1, .query 1 .listForeignKeys] := by
    simp only [derive_infer_schema_load, load_table_names, load_foreign_key_constraints,
      backend_load_foreign_keys, h0, h1, hts]
    rfl
  refine ⟨hmain, ?_⟩
  rw [hmain]
  rfl

/-- Witness for C8's amended statement at a concrete catalog and connection
string. -/
theorem derive_load_one_connection_per_call_witness :
    (derive_infer_schema_load sampleEnv ⟨true, true, true⟩
        (String.toList ("postgres://u:p@host/db")) none).2
      = [.establish 0, .query 0 .listTables, .establish 1, .query 1 .listForeignKeys] :=
  (derive_load_one_connection_per_call sampleEnv ⟨true, true, true⟩
    (String.toList ("postgres://u:p@host/db")) none
    (fun i => ⟨.Pg ⟨i⟩, by
      simp only [establish_connection]
      rw [if_pos ⟨by trivial, Or.inl (by decide)⟩]⟩)
    ⟨[⟨none, ("users" : String)⟩], rfl⟩).1

/-- C10: the items generated by `derive_infer_schema` with a supplied schema
name are exactly the items generated without one, wrapped in a single public
module named after the schema; without a schema name every emitted item is a
table module or a `joinable!` invocation at top level, never a wrapping
module. -/
theorem derive_infer_schema_schema_wrapping (url : Url) (n : String)
    (table_names : List TableData) (foreign_keys : List ForeignKeyConstraint) :
    derive_infer_schema url (some n) table_names foreign_keys
      = [SchemaItem.pubMod n (derive_infer_schema url none table_names foreign_keys)]
    ∧ ∀ it, it ∈ derive_infer_schema url none table_names foreign_keys →
        (∃ m u t, it = SchemaItem.tableMod m u t)
        ∨ (∃ c p k, it = SchemaItem.joinable c p k) := by
  refine ⟨rfl, fun it hit => ?_⟩
  simp only [derive_infer_schema, List.mem_append, List.mem_map] at hit
  rcases hit with ⟨t, -, ht⟩ | ⟨fk, -, hfk⟩
  · exact Or.inl ⟨("infer_" : String) ++ t.name, url, t.toString, ht.symm⟩
  · exact Or.inr ⟨fk.child_table.name, fk.parent_table.name, fk.foreign_key, hfk.symm⟩

/-- Witness for C10 at a one-table, one-constraint input. -/
theorem derive_infer_schema_schema_wrapping_witness :
    derive_infer_schema (String.toList ("db.sqlite")) (some ("public" : String))
        [⟨none, ("users" : String)⟩] []
      = [SchemaItem.pubMod ("public" : String)
          (derive_infer_schema (String.toList ("db.sqlite")) none
            [⟨none, ("users" : String)⟩] [])]
    ∧ ((∃ m u t, SchemaItem.tableMod (("infer_" : String) ++ ("users" : String))
          (String.toList ("db.sqlite")) (("users" : String))
            = SchemaItem.tableMod m u t)
        ∨ (∃ c p k, SchemaItem.tableMod (("infer_" : String) ++ ("users" : String))
          (String.toList ("db.sqlite")) (("users" : String))
            = SchemaItem.joinable c p k)) :=
  ⟨(derive_infer_schema_schema_wrapping (String.toList ("db.sqlite"))
      ("public" : String) [⟨none, ("users" : String)⟩] []).1,
   (derive_infer_schema_schema_wrapping (String.toList ("db.sqlite"))
      ("public" : String) [⟨none, ("users" : String)⟩] []).2
     (SchemaItem.tableMod (("infer_" : String) ++ ("users" : String))
       (String.toList ("db.sqlite")) (("users" : String)))
     (by
       simp only [derive_infer_schema, remove_unsafe_foreign_keys_for_codegen,
         List.filter_nil, List.map_nil, List.append_nil, List.map_cons,
         TableData.toString]
       exact List.mem_singleton.mpr rfl)⟩

end DieselInfer
